import Mathlib

/-!
Verification of the Portal Authentication Engine (src/portal-auth.js, v3.10).

The engine is a browser module operating over localStorage slots:
the session slot (key sitePortalSession), the magic-token collection
(key sitePortalMagicTokens), and the Salesforce/Box configuration
(key siteSalesforceBox).  We embed it shallowly:

* localStorage contents are explicit values.  The session slot is a
  SessionSlot (absent, unparseable, parsed-but-falsy, or a stored record);
  the token collection is a List TokenEntry (an absent or unparseable
  collection reads back as the empty list in the source, so the list value
  is the full observable state).
* Timestamps (Date.now(), expiresAt) are naturals in milliseconds.
* Math.random-based UUID generation is non-deterministic, so every
  freshly generated UUID enters as an explicit parameter.
* Network calls (fetch + JSON parsing) are non-deterministic, so the
  settled outcome of the whole fetch/parse pipeline enters as an explicit
  QueryOutcome parameter: the transport threw (or the body failed to
  parse), the response was non-OK, or a parsed body with or without a
  usable records array.
* JavaScript string truthiness (empty string is falsy, null/undefined are
  falsy) is modelled by jsStrOr / jsStrOrNull over Option String.
-/

set_option autoImplicit false

namespace PortalAuth

/-- SESSION_DURATION = 24 * 60 * 60 * 1000 (24 hours, in ms). -/
def SESSION_DURATION : Nat := 24 * 60 * 60 * 1000

/-- MAGIC_DURATION = 15 * 60 * 1000 (15 minutes, in ms). -/
def MAGIC_DURATION : Nat := 15 * 60 * 1000

/-- JavaScript `v || d` for a possibly-absent string `v`:
null/undefined and the empty string are falsy and yield `d`. -/
def jsStrOr (v : Option String) (d : String) : String :=
  match v with
  | none => d
  | some s => if s = "" then d else s

/-- JavaScript `v || null` for a possibly-absent string `v`:
null/undefined and the empty string are falsy and yield null. -/
def jsStrOrNull (v : Option String) : Option String :=
  match v with
  | none => none
  | some s => if s = "" then none else some s

/-- A magic-link token record as persisted under sitePortalMagicTokens:
`{ token: token, email: email, expiresAt: Date.now() + MAGIC_DURATION }`. -/
structure TokenEntry where
  token : String
  email : String
  expiresAt : Nat
deriving Repr, DecidableEq

/-- A session record as built by setPortalSession and persisted under
sitePortalSession. -/
structure Session where
  authenticated : Bool
  method : String
  email : String
  displayName : String
  contactId : Option String
  contactName : Option String
  token : String
  expiresAt : Nat
deriving Repr, DecidableEq

/-- Observable state of the sitePortalSession localStorage slot as seen by
getPortalSession: nothing stored (`!raw`), stored text on which JSON.parse
throws, stored text parsing to a falsy value (`!session`), or a stored
session record. -/
inductive SessionSlot where
  | empty
  | corrupt
  | parsedFalsy
  | stored (s : Session)
deriving Repr, DecidableEq

/-- The localStorage state the Magic Link functions touch: the session slot
and the token collection (an absent or unparseable collection is read back
as `[]` by getMagicTokens, so the list is the whole observable state). -/
structure Store where
  sessionSlot : SessionSlot
  tokens : List TokenEntry
deriving Repr, DecidableEq

/-- getPortalSession (portal-auth.js lines 17-32): returns the parsed
session, or null; side effects on the slot (removeItem on parse failure
and on expiry) are returned as the second component.  `Date.now()` is the
`now` argument; the expiry test is the strict `Date.now() > expiresAt`. -/
def getPortalSession (slot : SessionSlot) (now : Nat) : Option Session × SessionSlot :=
  match slot with
  | .empty => (none, .empty)
  | .corrupt => (none, .empty)
  | .parsedFalsy => (none, .parsedFalsy)
  | .stored s =>
    if !s.authenticated then (none, .stored s)
    else if now > s.expiresAt then (none, .empty)
    else (some s, .stored s)

/-- The argument object accepted by setPortalSession; absent properties are
`none`. -/
structure SessionData where
  method : Option String
  email : Option String
  displayName : Option String
  contactId : Option String
  contactName : Option String
  token : Option String
deriving Repr, DecidableEq

/-- setPortalSession (lines 34-47): builds the session record with JS
`||` defaulting, stamps `expiresAt = now + SESSION_DURATION`, persists it
and returns it.  `freshUuid` is the generateUUID() value used when
`data.token` is falsy. -/
def setPortalSession (data : SessionData) (now : Nat) (freshUuid : String) : Session :=
  { authenticated := true
    method := jsStrOr data.method "unknown"
    email := jsStrOr data.email ""
    displayName := jsStrOr data.displayName (jsStrOr data.email "")
    contactId := jsStrOrNull data.contactId
    contactName := jsStrOrNull data.contactName
    token := jsStrOr data.token freshUuid
    expiresAt := now + SESSION_DURATION }

/-- updateSessionContact (lines 49-56): reads the session (with that
read's side effects), returns null if absent, otherwise overwrites the
contactId and contactName properties, re-persists, and returns the
mutated record. -/
def updateSessionContact (contactId contactName : String) (slot : SessionSlot) (now : Nat) :
    Option Session × SessionSlot :=
  match getPortalSession slot now with
  | (none, slot1) => (none, slot1)
  | (some s, _) =>
    let s1 := { s with contactId := some contactId, contactName := some contactName }
    (some s1, .stored s1)

/-- The value returned by generateMagicToken on success.  The source also
returns an emailTemplate (a presentation payload whose strings embed the
same magicUrl); it is not modelled here as no observable behaviour reads
it back. -/
structure MagicResult where
  token : String
  magicUrl : String
deriving Repr, DecidableEq

/-- The directory part of window.location.pathname, as computed by
`pathname.replace(/[^\x2f]*$/, "")`: the trailing run of non-slash
characters is dropped. -/
def pathDir (p : String) : String :=
  String.mk ((p.data.reverse.dropWhile (fun c => c ≠ '/')).reverse)

/-- JavaScript `email.includes("@")` — the needle being the single
character "@", this is membership of '@' among the string's characters. -/
def hasAtSign (s : String) : Bool := s.data.contains '@'

/-- generateMagicToken (lines 112-144): rejects a falsy email or one
without "@"; otherwise appends a record with the fresh `uuid` and
`expiresAt = now + MAGIC_DURATION` to the collection, persists, and
returns the token value together with the redemption URL
`origin ++ pathDir pathname ++ "portal-login.html?token=" ++ uuid`.
`origin` and `pathname` stand for window.location.origin and
window.location.pathname. -/
def generateMagicToken (email : String) (now : Nat) (uuid : String)
    (origin pathname : String) (st : Store) : Option MagicResult × Store :=
  if email = "" ∨ hasAtSign email = false then (none, st)
  else
    let entry : TokenEntry := { token := uuid, email := email, expiresAt := now + MAGIC_DURATION }
    let magicUrl := origin ++ pathDir pathname ++ "portal-login.html?token=" ++ uuid
    (some { token := uuid, magicUrl := magicUrl },
     { st with tokens := st.tokens ++ [entry] })

/-- The scan-and-splice loop of validateMagicToken (lines 152-158): find
the first entry whose token matches and is live (`now < expiresAt`),
remove it, and return it together with the remaining list. -/
def consumeFirst (v : String) (now : Nat) : List TokenEntry → Option TokenEntry × List TokenEntry
  | [] => (none, [])
  | e :: rest =>
    if e.token = v ∧ now < e.expiresAt then (some e, rest)
    else
      let r := consumeFirst v now rest
      (r.1, e :: r.2)

/-- validateMagicToken (lines 146-172): a falsy token returns null at once
(no store access); otherwise the first live matching entry is spliced out,
the remainder is filtered to live entries and persisted, and on a match a
fresh magic-link session is created (sessionUuid is the generateUUID()
value that setPortalSession consumes for the session token). -/
def validateMagicToken (v : String) (now : Nat) (sessionUuid : String) (st : Store) :
    Option Session × Store :=
  if v = "" then (none, st)
  else
    let r := consumeFirst v now st.tokens
    let pruned := r.2.filter (fun t => now < t.expiresAt)
    match r.1 with
    | some m =>
      let session := setPortalSession
        { method := some "magic-link", email := some m.email, displayName := some m.email,
          contactId := none, contactName := none, token := none } now sessionUuid
      (some session, { sessionSlot := .stored session, tokens := pruned })
    | none => (none, { st with tokens := pruned })

/-- The Salesforce configuration read from siteSalesforceBox; only the
fields the embedded functions test. -/
structure SFConfig where
  instanceUrl : String
  accessToken : Option String
deriving Repr, DecidableEq

/-- The settled outcome of the fetch + JSON pipeline of a Salesforce query:
the transport threw or the body failed to parse (both land in the final
catch), the response was non-OK (`!resp.ok`), or a parsed body whose
records field is a usable array or not (absent records, or a falsy body,
behave alike in both consumers). -/
inductive QueryOutcome (α : Type) where
  | throws
  | httpError
  | success (records : Option (List α))
deriving Repr, DecidableEq

/-- The guard shared by verifyEmail and fetchAllContacts (lines 76 and
272): `!config || !config.instanceUrl || !email` — the CRM is usable only
with a present config, a truthy instanceUrl, and a truthy email. -/
def sfConfigured (config : Option SFConfig) (email : String) : Bool :=
  match config with
  | none => false
  | some c => !(c.instanceUrl = "") && !(email = "")

/-- The record type of the verification query (SELECT Id, Email); only its
count is ever inspected. -/
structure VerifyRecord where
  Id : String
  Email : String
deriving Repr, DecidableEq

/-- Result shape of verifyEmail: `{ verified, source }`. -/
structure VerifyResult where
  verified : Bool
  source : String
deriving Repr, DecidableEq

/-- verifyEmail (lines 74-108): with no usable config, resolve
`{verified: true, source: "local"}` without fetching; on a non-OK
response, a body without a records array, or a thrown transport/parse
error, resolve `{verified: true, source: "fallback"}`; on a records
array, verified is `records.length > 0` with source "salesforce". -/
def verifyEmail (config : Option SFConfig) (email : String)
    (out : QueryOutcome VerifyRecord) : VerifyResult :=
  if sfConfigured config email then
    match out with
    | .throws => { verified := true, source := "fallback" }
    | .httpError => { verified := true, source := "fallback" }
    | .success none => { verified := true, source := "fallback" }
    | .success (some recs) =>
      if recs.length > 0 then { verified := true, source := "salesforce" }
      else { verified := false, source := "salesforce" }
  else { verified := true, source := "local" }

/-- The record type of the contact queries (SELECT Id, FirstName,
LastName, Box_Upload_Link__c, Box_View_Only_Link__c); fields that may be
absent in the CRM answer are Options. -/
structure SFRecord where
  Id : String
  FirstName : Option String
  LastName : Option String
  Box_Upload_Link__c : Option String
  Box_View_Only_Link__c : Option String
deriving Repr, DecidableEq

/-- The Contact shape the portal consumes. -/
structure Contact where
  id : String
  firstName : String
  lastName : String
  uploadLink : Option String
  viewLink : Option String
deriving Repr, DecidableEq

/-- The per-record mapping inside fetchAllContacts (lines 290-298), with
JS `||` defaulting: names default to "", links to null. -/
def mapContact (rec : SFRecord) : Contact :=
  { id := rec.Id
    firstName := jsStrOr rec.FirstName ""
    lastName := jsStrOr rec.LastName ""
    uploadLink := jsStrOrNull rec.Box_Upload_Link__c
    viewLink := jsStrOrNull rec.Box_View_Only_Link__c }

/-- fetchAllContacts (lines 270-304): with no usable config resolve [];
on a non-OK response, a thrown error, or a body without a non-empty
records array resolve []; otherwise map every record in order. -/
def fetchAllContacts (config : Option SFConfig) (email : String)
    (out : QueryOutcome SFRecord) : List Contact :=
  if sfConfigured config email then
    match out with
    | .throws => []
    | .httpError => []
    | .success none => []
    | .success (some recs) =>
      if recs.length > 0 then recs.map mapContact else []
  else []

/-! ## Helper lemmas on the token-scan loop -/

/-- If no entry of the list is a live match, the scan removes nothing and
returns the list unchanged. -/
theorem consumeFirst_no_match (v : String) (now : Nat) (l : List TokenEntry)
    (h : ∀ e ∈ l, ¬(e.token = v ∧ now < e.expiresAt)) :
    consumeFirst v now l = (none, l) := by
  induction l with
  | nil => rfl
  | cons e rest ih =>
    have he := h e (List.mem_cons_self e rest)
    have hr : ∀ x ∈ rest, ¬(x.token = v ∧ now < x.expiresAt) :=
      fun x hx => h x (List.mem_cons_of_mem e hx)
    simp [consumeFirst, if_neg he, ih hr]

/-- A successful scan splits the list around the removed entry: everything
before it is not a live match, and the removed entry is a live match. -/
theorem consumeFirst_some_split (v : String) (now : Nat) (l : List TokenEntry)
    (m : TokenEntry) (rest : List TokenEntry)
    (h : consumeFirst v now l = (some m, rest)) :
    ∃ l1 l2, l = l1 ++ m :: l2 ∧ rest = l1 ++ l2
      ∧ (∀ e ∈ l1, ¬(e.token = v ∧ now < e.expiresAt))
      ∧ m.token = v ∧ now < m.expiresAt := by
  induction l generalizing rest with
  | nil => simp [consumeFirst] at h
  | cons e tail ih =>
    by_cases hc : e.token = v ∧ now < e.expiresAt
    · rw [consumeFirst, if_pos hc] at h
      have hm : some e = some m := congrArg Prod.fst h
      have hrest : tail = rest := congrArg Prod.snd h
      have hem : e = m := Option.some.inj hm
      subst hem
      exact ⟨[], tail, rfl, by simp [hrest], by intro x hx; simp at hx, hc.1, hc.2⟩
    · rw [consumeFirst, if_neg hc] at h
      have hm : (consumeFirst v now tail).1 = some m := congrArg Prod.fst h
      have hrest : e :: (consumeFirst v now tail).2 = rest := congrArg Prod.snd h
      have htail : consumeFirst v now tail = (some m, (consumeFirst v now tail).2) := by
        rw [← hm]
      obtain ⟨l1, l2, hl, hr, hnm, hv, hlive⟩ := ih _ htail
      refine ⟨e :: l1, l2, by simp [hl], ?_, ?_, hv, hlive⟩
      · rw [← hrest, hr]
        rfl
      · intro x hx
        rcases List.mem_cons.mp hx with hx | hx
        · exact hx ▸ hc
        · exact hnm x hx

/-- A failed scan returns the list unchanged. -/
theorem consumeFirst_none (v : String) (now : Nat) (l : List TokenEntry)
    (h : (consumeFirst v now l).1 = none) :
    (consumeFirst v now l).2 = l := by
  induction l with
  | nil => rfl
  | cons e tail ih =>
    by_cases hc : e.token = v ∧ now < e.expiresAt
    · rw [consumeFirst, if_pos hc] at h ⊢
      simp at h
    · rw [consumeFirst, if_neg hc] at h ⊢
      simp only at h ⊢
      rw [ih h]

/-- When the prefix of an appended list holds no live match, the scan acts
on the suffix. -/
theorem consumeFirst_append (v : String) (now : Nat) (l1 l2 : List TokenEntry)
    (h : ∀ e ∈ l1, ¬(e.token = v ∧ now < e.expiresAt)) :
    consumeFirst v now (l1 ++ l2)
      = ((consumeFirst v now l2).1, l1 ++ (consumeFirst v now l2).2) := by
  induction l1 with
  | nil => simp
  | cons e tail ih =>
    have he := h e (List.mem_cons_self e tail)
    have ht : ∀ x ∈ tail, ¬(x.token = v ∧ now < x.expiresAt) :=
      fun x hx => h x (List.mem_cons_of_mem e hx)
    simp [consumeFirst, if_neg he, ih ht]

/-! ## Claim theorems -/

/-- Claim C4: for every token whose expiresAt is at or before the current
time, redeem returns null even on the first attempt — every entry carrying
the redeemed value being expired (expiresAt ≤ now), validateMagicToken
yields no session. -/
theorem C4_expired_token_redeem_null (v sessionUuid : String) (now : Nat) (st : Store)
    (hexp : ∀ e ∈ st.tokens, e.token = v → e.expiresAt ≤ now) :
    (validateMagicToken v now sessionUuid st).1 = none := by
  unfold validateMagicToken
  by_cases hv : v = ""
  · simp [hv]
  · have hnm : ∀ e ∈ st.tokens, ¬(e.token = v ∧ now < e.expiresAt) := by
      intro e he hand
      exact Nat.not_lt_of_le (hexp e he hand.1) hand.2
    simp [hv, consumeFirst_no_match v now st.tokens hnm]

/-- Witness for C4 at a concrete expired token. -/
theorem C4_expired_token_redeem_null_witness :
    (validateMagicToken "t0" 1000 "u" ⟨.empty, [⟨"t0", "a@b", 1000⟩]⟩).1 = none :=
  C4_expired_token_redeem_null "t0" "u" 1000 ⟨.empty, [⟨"t0", "a@b", 1000⟩]⟩ (by decide)

/-- Claim C10 as stated is false: with the empty (falsy) input value the
source returns null immediately, before the sweep, so an expired entry
survives the call. -/
theorem C10_counterexample :
    (validateMagicToken "" 10 "u" ⟨.empty, [⟨"t0", "a@b", 5⟩]⟩).1 = none
    ∧ ¬(∀ e ∈ (validateMagicToken "" 10 "u" ⟨.empty, [⟨"t0", "a@b", 5⟩]⟩).2.tokens,
          10 < e.expiresAt) := by
  decide

/-- Claim C10 (amended): for every non-empty input value, when redeem
returns null it replaces the persisted collection with its live entries
only, so no expired token remains stored; the empty (falsy) input value
instead returns null at once, leaving the store untouched. -/
theorem C10_passive_sweep :
    (∀ (v sessionUuid : String) (now : Nat) (st : Store), v ≠ "" →
      (validateMagicToken v now sessionUuid st).1 = none →
      (validateMagicToken v now sessionUuid st).2.tokens
          = st.tokens.filter (fun t => now < t.expiresAt)
      ∧ ∀ e ∈ (validateMagicToken v now sessionUuid st).2.tokens, now < e.expiresAt)
    ∧ (∀ (sessionUuid : String) (now : Nat) (st : Store),
        validateMagicToken "" now sessionUuid st = (none, st)) := by
  constructor
  · intro v sessionUuid now st hv hnull
    rcases hp : consumeFirst v now st.tokens with ⟨o, rest⟩
    cases o with
    | some m =>
      simp only [validateMagicToken, if_neg hv, hp] at hnull
      simp at hnull
    | none =>
      have hrest : rest = st.tokens := by
        have h2 := consumeFirst_none v now st.tokens (by rw [hp])
        rw [hp] at h2
        exact h2
      subst hrest
      simp only [validateMagicToken, if_neg hv, hp]
      refine ⟨by simp, ?_⟩
      intro e he
      exact of_decide_eq_true (List.mem_filter.mp he).2
  · intro sessionUuid now st
    rw [validateMagicToken, if_pos rfl]

/-- Witness for the amended C10: a wrong non-empty value sweeps the
expired entry out. -/
theorem C10_passive_sweep_witness :
    (validateMagicToken "zz" 10 "u" ⟨.empty, [⟨"t0", "a@b", 5⟩]⟩).2.tokens
        = [⟨"t0", "a@b", 5⟩].filter (fun t => 10 < t.expiresAt)
    ∧ ∀ e ∈ (validateMagicToken "zz" 10 "u" ⟨.empty, [⟨"t0", "a@b", 5⟩]⟩).2.tokens,
        10 < e.expiresAt :=
  C10_passive_sweep.1 "zz" "u" 10 ⟨.empty, [⟨"t0", "a@b", 5⟩]⟩ (by decide) (by decide)

/-- Claim C2: token redemption succeeds at most once.  When the redeemed
value occurs at most once in the stored collection (as the issue path's
fresh-UUID generation maintains), a successful redemption removes the
matching entry, and redeeming the same value against the resulting store
returns null at any later (or any) time. -/
theorem C2_redeem_at_most_once (v u1 u2 : String) (now1 now2 : Nat) (st : Store)
    (s : Session) (st1 : Store)
    (huniq : (st.tokens.filter (fun e => e.token == v)).length ≤ 1)
    (hred : validateMagicToken v now1 u1 st = (some s, st1)) :
    (validateMagicToken v now2 u2 st1).1 = none := by
  by_cases hv : v = ""
  · rw [validateMagicToken, if_pos hv] at hred
    simp at hred
  · rcases hp : consumeFirst v now1 st.tokens with ⟨o, rest⟩
    cases o with
    | none =>
      simp only [validateMagicToken, if_neg hv, hp] at hred
      simp at hred
    | some m =>
      have hsnd := congrArg Prod.snd hred
      simp only [validateMagicToken, if_neg hv, hp] at hsnd
      have htok : st1.tokens = rest.filter (fun t => now1 < t.expiresAt) := by
        rw [← hsnd]
      obtain ⟨l1, l2, hl, hr, hnm, hmv, hlive⟩ :=
        consumeFirst_some_split v now1 st.tokens m rest (by rw [hp])
      have hzero : ((l1 ++ l2).filter (fun e => e.token == v)).length = 0 := by
        have hcount : (st.tokens.filter (fun e => e.token == v)).length
            = ((l1 ++ l2).filter (fun e => e.token == v)).length + 1 := by
          rw [hl]
          simp [List.filter_append, hmv]
          omega
        omega
      have hnilv : (l1 ++ l2).filter (fun e => e.token == v) = [] :=
        List.length_eq_zero.mp hzero
      have hnoval : ∀ e ∈ st1.tokens, e.token ≠ v := by
        intro e he hev
        have he2 : e ∈ l1 ++ l2 := by
          rw [htok, hr] at he
          exact List.mem_of_mem_filter he
        have : e ∈ (l1 ++ l2).filter (fun x => x.token == v) :=
          List.mem_filter.mpr ⟨he2, by simp [hev]⟩
        rw [hnilv] at this
        simp at this
      have hnone : ∀ e ∈ st1.tokens, ¬(e.token = v ∧ now2 < e.expiresAt) :=
        fun e he hand => hnoval e he hand.1
      rw [validateMagicToken, if_neg hv]
      simp [consumeFirst_no_match v now2 st1.tokens hnone]

/-- Witness for C2: a single live token is consumed by the first call and
refused by the second. -/
theorem C2_redeem_at_most_once_witness :
    (validateMagicToken "t0" 5 "u2"
      (validateMagicToken "t0" 0 "u1" ⟨.empty, [⟨"t0", "a@b", 100⟩]⟩).2).1 = none := by
  refine C2_redeem_at_most_once "t0" "u1" "u2" 0 5 ⟨.empty, [⟨"t0", "a@b", 100⟩]⟩
    (setPortalSession
      { method := some "magic-link", email := some "a@b", displayName := some "a@b",
        contactId := none, contactName := none, token := none } 0 "u1")
    (validateMagicToken "t0" 0 "u1" ⟨.empty, [⟨"t0", "a@b", 100⟩]⟩).2 (by decide) ?_
  rfl

/-- Claim C3: happy path.  For a valid email (non-empty, containing "@"),
issuing a magic token with a fresh non-empty UUID and redeeming the
returned token value before it expires yields a Session whose email is
the issued email and whose method is "magic-link". -/
theorem C3_issue_then_redeem (email uuid sessionUuid origin pathname : String)
    (now1 now2 : Nat) (st : Store)
    (he1 : email ≠ "") (he2 : hasAtSign email = true)
    (huuid : uuid ≠ "")
    (hfresh : ∀ e ∈ st.tokens, e.token ≠ uuid)
    (hnow : now2 < now1 + MAGIC_DURATION) :
    ∃ r st1 s st2,
      generateMagicToken email now1 uuid origin pathname st = (some r, st1)
      ∧ validateMagicToken r.token now2 sessionUuid st1 = (some s, st2)
      ∧ s.email = email ∧ s.method = "magic-link" := by
  have hcond : ¬(email = "" ∨ hasAtSign email = false) := by
    rintro (h | h)
    · exact he1 h
    · rw [he2] at h
      exact Bool.noConfusion h
  have hgen : generateMagicToken email now1 uuid origin pathname st
      = (some ⟨uuid, origin ++ pathDir pathname ++ "portal-login.html?token=" ++ uuid⟩,
         ⟨st.sessionSlot, st.tokens ++ [⟨uuid, email, now1 + MAGIC_DURATION⟩]⟩) := by
    rw [generateMagicToken, if_neg hcond]
  have hnm : ∀ e ∈ st.tokens, ¬(e.token = uuid ∧ now2 < e.expiresAt) :=
    fun e he hand => hfresh e he hand.1
  have hlast : consumeFirst uuid now2 [(⟨uuid, email, now1 + MAGIC_DURATION⟩ : TokenEntry)]
      = (some ⟨uuid, email, now1 + MAGIC_DURATION⟩, []) := by
    rw [consumeFirst, if_pos ⟨rfl, hnow⟩]
  have happ := consumeFirst_append uuid now2 st.tokens
    [⟨uuid, email, now1 + MAGIC_DURATION⟩] hnm
  rw [hlast] at happ
  have hval : validateMagicToken uuid now2 sessionUuid
      ⟨st.sessionSlot, st.tokens ++ [⟨uuid, email, now1 + MAGIC_DURATION⟩]⟩
      = (some (setPortalSession
            ⟨some "magic-link", some email, some email, none, none, none⟩ now2 sessionUuid),
         ⟨.stored (setPortalSession
            ⟨some "magic-link", some email, some email, none, none, none⟩ now2 sessionUuid),
          (st.tokens ++ ([] : List TokenEntry)).filter (fun t => now2 < t.expiresAt)⟩) := by
    rw [validateMagicToken, if_neg huuid]
    simp only [happ]
  refine ⟨_, _, _, _, hgen, hval, ?_, ?_⟩
  · simp [setPortalSession, jsStrOr, if_neg he1]
  · simp [setPortalSession, jsStrOr]

/-- Witness for C3 on a concrete issue/redeem round trip. -/
theorem C3_issue_then_redeem_witness :
    ∃ r st1 s st2,
      generateMagicToken "a@b" 0 "tok-1" "https://x" "/p/portal-login.html"
          ⟨.empty, []⟩ = (some r, st1)
      ∧ validateMagicToken r.token 0 "sess-1" st1 = (some s, st2)
      ∧ s.email = "a@b" ∧ s.method = "magic-link" :=
  C3_issue_then_redeem "a@b" "tok-1" "sess-1" "https://x" "/p/portal-login.html" 0 0
    ⟨.empty, []⟩ (by decide) (by decide) (by decide) (by decide) (by decide)

/-- Claim C5: session read returns null when nothing is persisted, when
the persisted content fails to parse (the corrupt record being discarded),
when the authenticated flag is falsy, or when expiresAt has passed; in the
expired case (authenticated record, expiresAt strictly before now) the
stale record is deleted, so a subsequent read at any time also returns
null. -/
theorem C5_session_read_null :
    (∀ now, getPortalSession .empty now = (none, .empty))
    ∧ (∀ now, getPortalSession .corrupt now = (none, .empty))
    ∧ (∀ now, getPortalSession .parsedFalsy now = (none, .parsedFalsy))
    ∧ (∀ (s : Session) (now : Nat), s.authenticated = false →
        getPortalSession (.stored s) now = (none, .stored s))
    ∧ (∀ (s : Session) (now : Nat), s.authenticated = true → s.expiresAt < now →
        getPortalSession (.stored s) now = (none, .empty)
        ∧ ∀ now2, (getPortalSession (getPortalSession (.stored s) now).2 now2).1 = none) := by
  refine ⟨fun now => rfl, fun now => rfl, fun now => rfl, ?_, ?_⟩
  · intro s now hauth
    simp [getPortalSession, hauth]
  · intro s now hauth hexp
    have h1 : getPortalSession (.stored s) now = (none, .empty) := by
      simp [getPortalSession, hauth, hexp]
    exact ⟨h1, fun now2 => by rw [h1]; rfl⟩

/-- Witness for C5: an unauthenticated record and an expired record both
read back as null, the latter with deletion. -/
theorem C5_session_read_null_witness :
    getPortalSession (.stored ⟨false, "m", "a@b", "a@b", none, none, "tk", 50⟩) 10
        = (none, .stored ⟨false, "m", "a@b", "a@b", none, none, "tk", 50⟩)
    ∧ (getPortalSession (.stored ⟨true, "m", "a@b", "a@b", none, none, "tk", 5⟩) 10
        = (none, .empty)
      ∧ ∀ now2, (getPortalSession
          (getPortalSession (.stored ⟨true, "m", "a@b", "a@b", none, none, "tk", 5⟩) 10).2
          now2).1 = none) :=
  ⟨C5_session_read_null.2.2.2.1 ⟨false, "m", "a@b", "a@b", none, none, "tk", 50⟩ 10 rfl,
   C5_session_read_null.2.2.2.2 ⟨true, "m", "a@b", "a@b", none, none, "tk", 5⟩ 10 rfl
     (by decide)⟩

/-- Claim C7: attachContact on a live session updates exactly the
contactId and contactName fields of the persisted session, leaving
expiresAt, email, method, displayName, token and authenticated unchanged;
with no live session it returns null. -/
theorem C7_attachContact_frame :
    (∀ (cid cname : String) (slot : SessionSlot) (now : Nat) (s : Session),
      (getPortalSession slot now).1 = some s →
      ∃ s1, updateSessionContact cid cname slot now = (some s1, .stored s1)
        ∧ s1.contactId = some cid ∧ s1.contactName = some cname
        ∧ s1.expiresAt = s.expiresAt ∧ s1.email = s.email ∧ s1.method = s.method
        ∧ s1.displayName = s.displayName ∧ s1.token = s.token
        ∧ s1.authenticated = s.authenticated)
    ∧ (∀ (cid cname : String) (slot : SessionSlot) (now : Nat),
      (getPortalSession slot now).1 = none →
      (updateSessionContact cid cname slot now).1 = none) := by
  constructor
  · intro cid cname slot now s hlive
    have hp : getPortalSession slot now = (some s, (getPortalSession slot now).2) := by
      rw [← hlive]
    refine ⟨{ s with contactId := some cid, contactName := some cname }, ?_,
      rfl, rfl, rfl, rfl, rfl, rfl, rfl, rfl⟩
    rw [updateSessionContact, hp]
  · intro cid cname slot now hnull
    have hp : getPortalSession slot now = (none, (getPortalSession slot now).2) := by
      rw [← hnull]
    rw [updateSessionContact, hp]

/-- Witness for C7: attaching a contact to a live session rewrites the two
contact fields and persists the mutated record. -/
theorem C7_attachContact_frame_witness :
    ∃ s1, updateSessionContact "003A" "Jane Doe"
        (.stored ⟨true, "magic-link", "a@b", "a@b", none, none, "tk", 100⟩) 10
        = (some s1, .stored s1)
      ∧ s1.contactId = some "003A" ∧ s1.contactName = some "Jane Doe"
      ∧ s1.expiresAt = (⟨true, "magic-link", "a@b", "a@b", none, none, "tk", 100⟩ :
          Session).expiresAt
      ∧ s1.email = "a@b" ∧ s1.method = "magic-link"
      ∧ s1.displayName = "a@b" ∧ s1.token = "tk"
      ∧ s1.authenticated = true :=
  C7_attachContact_frame.1 "003A" "Jane Doe"
    (.stored ⟨true, "magic-link", "a@b", "a@b", none, none, "tk", 100⟩) 10
    ⟨true, "magic-link", "a@b", "a@b", none, none, "tk", 100⟩ (by decide)

/-- Claim C8: attachContact on a store with no live session returns null
and creates no session: any subsequent read of the resulting slot also
returns null. -/
theorem C8_attach_no_session (cid cname : String) (slot : SessionSlot) (now : Nat)
    (hnull : (getPortalSession slot now).1 = none) :
    (updateSessionContact cid cname slot now).1 = none
    ∧ ∀ now2, (getPortalSession (updateSessionContact cid cname slot now).2 now2).1 = none := by
  have hp : getPortalSession slot now = (none, (getPortalSession slot now).2) := by
    rw [← hnull]
  rw [updateSessionContact, hp]
  refine ⟨rfl, ?_⟩
  intro now2
  cases slot with
  | empty => rfl
  | corrupt => rfl
  | parsedFalsy => rfl
  | stored s =>
    by_cases hauth : s.authenticated = false
    · simp [getPortalSession, hauth]
    · have hauth2 : s.authenticated = true := by
        cases h : s.authenticated
        · exact absurd h hauth
        · rfl
      by_cases hexp : now > s.expiresAt
      · simp [getPortalSession, hauth2, hexp]
      · exfalso
        rw [getPortalSession] at hnull
        simp [hauth2, hexp] at hnull

/-- Witness for C8: attachContact on an absent session slot is a no-op
returning null. -/
theorem C8_attach_no_session_witness :
    (updateSessionContact "003A" "Jane Doe" .empty 10).1 = none
    ∧ ∀ now2, (getPortalSession (updateSessionContact "003A" "Jane Doe" .empty 10).2
        now2).1 = none :=
  C8_attach_no_session "003A" "Jane Doe" .empty 10 (by decide)

/-- Claim C1: verify(email) is fail-open.  With no usable CRM
configuration every email verifies with source "local"; with a usable
configuration, a non-OK response, a success body without a records array,
and a thrown transport error all verify with source "fallback"; verified
is false exactly on a well-formed success response whose records array is
empty, with source "salesforce". -/
theorem C1_verify_fail_open :
    (∀ (cfg : Option SFConfig) (email : String) (out : QueryOutcome VerifyRecord),
      sfConfigured cfg email = false →
      verifyEmail cfg email out = ⟨true, "local"⟩)
    ∧ (∀ (cfg : Option SFConfig) (email : String),
      sfConfigured cfg email = true →
      verifyEmail cfg email .httpError = ⟨true, "fallback"⟩
      ∧ verifyEmail cfg email (.success none) = ⟨true, "fallback"⟩
      ∧ verifyEmail cfg email .throws = ⟨true, "fallback"⟩)
    ∧ (∀ (cfg : Option SFConfig) (email : String),
      sfConfigured cfg email = true →
      verifyEmail cfg email (.success (some [])) = ⟨false, "salesforce"⟩)
    ∧ (∀ (cfg : Option SFConfig) (email : String) (out : QueryOutcome VerifyRecord),
      (verifyEmail cfg email out).verified = false →
      sfConfigured cfg email = true ∧ out = .success (some [])
      ∧ (verifyEmail cfg email out).source = "salesforce") := by
  refine ⟨?_, ?_, ?_, ?_⟩
  · intro cfg email out hcfg
    rw [verifyEmail.eq_def, hcfg]
    rfl
  · intro cfg email hcfg
    rw [verifyEmail.eq_def, verifyEmail.eq_def, verifyEmail.eq_def, hcfg]
    exact ⟨rfl, rfl, rfl⟩
  · intro cfg email hcfg
    rw [verifyEmail.eq_def, hcfg]
    rfl
  · intro cfg email out hfalse
    cases hcfg : sfConfigured cfg email with
    | false =>
      rw [verifyEmail.eq_def, hcfg] at hfalse
      simp at hfalse
    | true =>
      refine ⟨rfl, ?_, ?_⟩
      · rw [verifyEmail.eq_def, hcfg] at hfalse
        cases out with
        | throws => simp at hfalse
        | httpError => simp at hfalse
        | success recs =>
          cases recs with
          | none => simp at hfalse
          | some l =>
            cases l with
            | nil => rfl
            | cons a t => simp at hfalse
      · rw [verifyEmail.eq_def, hcfg] at hfalse ⊢
        cases out with
        | throws => simp at hfalse
        | httpError => simp at hfalse
        | success recs =>
          cases recs with
          | none => simp at hfalse
          | some l =>
            cases l with
            | nil => rfl
            | cons a t => simp at hfalse

/-- Witness for C1 at a concrete configuration. -/
theorem C1_verify_fail_open_witness :
    verifyEmail none "a@b" (.success (some [⟨"003", "a@b"⟩])) = ⟨true, "local"⟩
    ∧ verifyEmail (some ⟨"https://sf.example", none⟩) "a@b" .throws = ⟨true, "fallback"⟩
    ∧ verifyEmail (some ⟨"https://sf.example", none⟩) "a@b" (.success (some []))
        = ⟨false, "salesforce"⟩ :=
  ⟨C1_verify_fail_open.1 none "a@b" (.success (some [⟨"003", "a@b"⟩])) (by decide),
   (C1_verify_fail_open.2.1 (some ⟨"https://sf.example", none⟩) "a@b" (by decide)).2.2,
   C1_verify_fail_open.2.2.1 (some ⟨"https://sf.example", none⟩) "a@b" (by decide)⟩

/-- Claim C6: issue(email) rejects an empty email or one without "@",
leaving the store untouched; otherwise it appends an entry carrying the
fresh UUID with expiresAt = now + 15 minutes, persists, and returns the
token value together with the redemption URL (origin, the pathname's
directory, the sign-in page and the token query parameter); under fresh
generation the new value is the only one of its kind in the collection. -/
theorem C6_issue (email : String) (now : Nat) (uuid origin pathname : String) (st : Store) :
    ((email = "" ∨ hasAtSign email = false) →
      generateMagicToken email now uuid origin pathname st = (none, st))
    ∧ (email ≠ "" → hasAtSign email = true →
      generateMagicToken email now uuid origin pathname st
        = (some ⟨uuid, origin ++ pathDir pathname ++ "portal-login.html?token=" ++ uuid⟩,
           ⟨st.sessionSlot, st.tokens ++ [(⟨uuid, email, now + MAGIC_DURATION⟩ : TokenEntry)]⟩)
      ∧ MAGIC_DURATION = 15 * 60 * 1000
      ∧ ((∀ e ∈ st.tokens, e.token ≠ uuid) →
          (st.tokens ++ [(⟨uuid, email, now + MAGIC_DURATION⟩ : TokenEntry)]).filter
              (fun e => e.token == uuid)
            = [⟨uuid, email, now + MAGIC_DURATION⟩])) := by
  constructor
  · intro hbad
    rw [generateMagicToken, if_pos hbad]
  · intro he1 he2
    have hcond : ¬(email = "" ∨ hasAtSign email = false) := by
      rintro (h | h)
      · exact he1 h
      · rw [he2] at h
        exact Bool.noConfusion h
    refine ⟨by rw [generateMagicToken, if_neg hcond], rfl, ?_⟩
    intro hfresh
    rw [List.filter_append]
    have h1 : st.tokens.filter (fun e => e.token == uuid) = [] := by
      rw [List.filter_eq_nil_iff]
      intro e he
      simp only [beq_iff_eq]
      exact hfresh e he
    rw [h1]
    simp

/-- Witness for C6: a valid and an invalid email at a concrete store. -/
theorem C6_issue_witness :
    generateMagicToken "nobody" 0 "tok-1" "https://x" "/p/portal-login.html"
        ⟨.empty, []⟩ = (none, ⟨.empty, []⟩)
    ∧ generateMagicToken "a@b" 0 "tok-1" "https://x" "/p/portal-login.html" ⟨.empty, []⟩
        = (some ⟨"tok-1",
            "https://x" ++ pathDir "/p/portal-login.html" ++ "portal-login.html?token=" ++ "tok-1"⟩,
           ⟨.empty, [] ++ [⟨"tok-1", "a@b", 0 + MAGIC_DURATION⟩]⟩) :=
  ⟨(C6_issue "nobody" 0 "tok-1" "https://x" "/p/portal-login.html" ⟨.empty, []⟩).1
      (Or.inr (by decide)),
   ((C6_issue "a@b" 0 "tok-1" "https://x" "/p/portal-login.html" ⟨.empty, []⟩).2
      (by decide) (by decide)).1⟩

/-- Claim C9: fetchAllByEmail never throws and is uniformly empty on
failure — missing configuration, non-OK response, missing records array,
or thrown transport error all yield [] — and on success each returned
record is mapped to the Contact shape in the order given. -/
theorem C9_fetchAll_contacts :
    (∀ (cfg : Option SFConfig) (email : String) (out : QueryOutcome SFRecord),
      sfConfigured cfg email = false → fetchAllContacts cfg email out = [])
    ∧ (∀ (cfg : Option SFConfig) (email : String),
      fetchAllContacts cfg email .httpError = []
      ∧ fetchAllContacts cfg email .throws = []
      ∧ fetchAllContacts cfg email (.success none) = [])
    ∧ (∀ (cfg : Option SFConfig) (email : String) (recs : List SFRecord),
      sfConfigured cfg email = true →
      fetchAllContacts cfg email (.success (some recs)) = recs.map mapContact) := by
  refine ⟨?_, ?_, ?_⟩
  · intro cfg email out hcfg
    rw [fetchAllContacts.eq_def, hcfg]
    rfl
  · intro cfg email
    cases hcfg : sfConfigured cfg email with
    | false =>
      rw [fetchAllContacts.eq_def, fetchAllContacts.eq_def, fetchAllContacts.eq_def, hcfg]
      exact ⟨rfl, rfl, rfl⟩
    | true =>
      rw [fetchAllContacts.eq_def, fetchAllContacts.eq_def, fetchAllContacts.eq_def, hcfg]
      exact ⟨rfl, rfl, rfl⟩
  · intro cfg email recs hcfg
    rw [fetchAllContacts.eq_def, hcfg]
    cases recs with
    | nil => rfl
    | cons r t => simp

/-- Witness for C9: a mocked two-record response maps to two Contacts in
order. -/
theorem C9_fetchAll_contacts_witness :
    fetchAllContacts (some ⟨"https://sf.example", none⟩) "a@b"
        (.success (some [⟨"003A", some "Jane", some "Doe", some "u1", none⟩,
                         ⟨"003B", none, some "Roe", none, some "v2"⟩]))
      = List.map mapContact
          [⟨"003A", some "Jane", some "Doe", some "u1", none⟩,
           ⟨"003B", none, some "Roe", none, some "v2"⟩] :=
  C9_fetchAll_contacts.2.2 (some ⟨"https://sf.example", none⟩) "a@b"
    [⟨"003A", some "Jane", some "Doe", some "u1", none⟩,
     ⟨"003B", none, some "Roe", none, some "v2"⟩] (by decide)

end PortalAuth
